import Mathlib

/-!
Verification of the query-decomposition and multi-step retrieval pipeline of a
financial RAG assistant.  The Python sources (query_decomposer.py,
multi_step_retriever.py, vector_store.py, rag_assistant.py) are shallowly
embedded: queries and chunk texts are lists of characters, Python floats are
modelled as exact rationals (every arithmetic operation appearing here —
decimal parsing and multiplication by powers of ten — is exact on the values
the claims mention), Python `None`-able fields become `Option`, and the
external search / generation capabilities become explicit `Except` outcomes.
-/

namespace FinQA

/-- Character-list view of a string literal; all embedded text is `List Char`. -/
def str (s : String) : List Char := s.toList

/-- ASCII lowercasing of one character, the effect of Python `str.lower()` on
the ASCII texts handled here. -/
def lowerChar (c : Char) : Char := c.toLower

/-- Lowercases a text, modelling `query.lower()`. -/
def lowerStr (t : List Char) : List Char := t.map lowerChar

/-- Python substring containment `needle in hay`. -/
def containsSub : List Char → List Char → Bool
  | n, [] => n.isEmpty
  | n, c :: t => n.isPrefixOf (c :: t) || containsSub n t

/-- Decimal digit character for a value below ten. -/
def digitChar (d : Nat) : Char := Char.ofNat (48 + d)

/-- Helper for `natChars`, accumulating digits from the right; the first
argument is fuel, always sufficient when at least the number itself. -/
def natCharsAux : Nat → Nat → List Char → List Char
  | 0, n, acc => digitChar n :: acc
  | fuel + 1, n, acc =>
    if n < 10 then digitChar n :: acc
    else natCharsAux fuel (n / 10) (digitChar (n % 10) :: acc)

/-- Decimal rendering of a natural number, Python `str(n)` / f-string `{n}`. -/
def natChars (n : Nat) : List Char := natCharsAux n n []

/-- Word character in the sense of the regex `\b` boundary: ASCII letters,
digits, or underscore (the queries handled are ASCII). -/
def isWordChar (c : Char) : Bool := c.isAlphanum || c == '_'

/-- Types of financial queries (`QueryType` enum in query_decomposer.py). -/
inductive QueryType where
  | simple_direct
  | comparative
  | cross_company
  | temporal
  | calculation
deriving DecidableEq

/-- The `.value` string of a `QueryType` member. -/
def QueryType.value : QueryType → List Char
  | .simple_direct => str "simple_direct"
  | .comparative => str "comparative"
  | .cross_company => str "cross_company"
  | .temporal => str "temporal"
  | .calculation => str "calculation"

/-- A decomposed sub-query (`SubQuery` dataclass). -/
structure SubQuery where
  text : List Char
  query_type : QueryType
  company : Option (List Char) := none
  year : Option Nat := none
  metric : Option (List Char) := none
  section_hint : Option (List Char) := none
deriving DecidableEq

/-- Result of query decomposition (`DecomposedQuery` dataclass). -/
structure DecomposedQuery where
  original_query : List Char
  query_type : QueryType
  sub_queries : List SubQuery
  requires_calculation : Bool := false
  calculation_type : Option (List Char) := none
deriving DecidableEq

/-- Company alias table `company_mappings`, in dict insertion order. -/
def company_mappings : List (List Char × List Char) :=
  [(str "google", str "GOOGL"), (str "alphabet", str "GOOGL"),
   (str "microsoft", str "MSFT"), (str "nvidia", str "NVDA"),
   (str "googl", str "GOOGL"), (str "msft", str "MSFT"),
   (str "nvda", str "NVDA")]

/-- Financial metric table `financial_metrics`, canonical name to surface
variants, in dict insertion order. -/
def financial_metrics : List (List Char × List (List Char)) :=
  [(str "revenue", [str "revenue", str "sales", str "total revenue", str "net sales"]),
   (str "profit", [str "profit", str "net income", str "earnings", str "net profit"]),
   (str "operating_income",
     [str "operating income", str "operating profit", str "operating earnings"]),
   (str "operating_margin", [str "operating margin", str "operating profit margin"]),
   (str "gross_margin", [str "gross margin", str "gross profit margin"]),
   (str "cash", [str "cash", str "cash and equivalents", str "cash position"]),
   (str "debt", [str "debt", str "total debt", str "long-term debt"]),
   (str "assets", [str "assets", str "total assets"]),
   (str "equity", [str "equity", str "shareholders equity", str "stockholders equity"]),
   (str "eps", [str "earnings per share", str "eps"]),
   (str "data_center_revenue",
     [str "data center revenue", str "datacenter revenue", str "data center sales"])]

/-- The values of `temporal_keywords`, flattened in dict insertion order
(growth, decline, comparison), as iterated by `classify_query_type`. -/
def temporal_keyword_list : List (List Char) :=
  [str "growth", str "grew", str "increase", str "increased", str "change",
   str "decline", str "decreased", str "drop", str "fell",
   str "compare", str "comparison", str "versus", str "vs", str "compared to"]

/-- The `comparison_keywords` list. -/
def comparison_keywords : List (List Char) :=
  [str "highest", str "lowest", str "best", str "worst", str "most", str "least",
   str "greater", str "better", str "which company", str "who had"]

/-- Calculation keywords tested inline in `classify_query_type`. -/
def calculation_keywords : List (List Char) :=
  [str "calculate", str "compute", str "growth rate", str "percentage"]

/-- Growth keywords tested inline in `decompose_query` for `calculation_type`. -/
def growth_keywords : List (List Char) :=
  [str "growth", str "grew", str "increase"]

/-- Embeds `QueryDecomposer.extract_companies`: scan the alias table in order,
appending each ticker whose alias occurs in the lowercased query, without
duplicates. -/
def extract_companies (query : List Char) : List (List Char) :=
  let query_lower := lowerStr query
  company_mappings.foldl
    (fun companies nt =>
      if containsSub nt.1 query_lower && !(companies.contains nt.2) then
        companies ++ [nt.2]
      else companies)
    []

/-- Scanner for the regex `\b(20\d{2})\b` used by `extract_years`: finds, left
to right and non-overlapping, maximal-boundary occurrences of `20` followed by
two digits, with non-word characters (or the text ends) on both sides.  `prev`
is the character just before the current position, `none` at the start. -/
def yearScan : Option Char → List Char → List Nat
  | prev, a :: b :: c :: d :: rest =>
    if (match prev with | none => true | some p => !isWordChar p)
        && a == '2' && b == '0' && c.isDigit && d.isDigit
        && (match rest with | [] => true | e :: _ => !isWordChar e) then
      (2000 + 10 * (c.toNat - 48) + (d.toNat - 48)) :: yearScan (some d) rest
    else
      yearScan (some a) (b :: c :: d :: rest)
  | _, _ => []

/-- First-occurrence deduplication, the membership behaviour of building a
Python set. -/
def dedupFirstAux (seen : List Nat) : List Nat → List Nat
  | [] => []
  | x :: xs =>
    if x ∈ seen then dedupFirstAux seen xs else x :: dedupFirstAux (x :: seen) xs

/-- First-occurrence deduplication from an empty seen-set. -/
def dedupFirst (l : List Nat) : List Nat := dedupFirstAux [] l

/-- Embeds Python `list(set(l))` for the small sets of years arising here.
CPython sets of small non-negative ints use `hash(n) = n` and an open-addressed
table of 8 slots while at most 4 elements are stored, growing to 32 slots at
the fifth insertion; iteration walks the slots in index order.  The deduplicated
years all lie in 2020..2025, hence occupy pairwise distinct slots (`n % 8`,
respectively `n % 32`), so the iteration order is exactly ascending slot index,
independent of insertion order. -/
def pySetList (l : List Nat) : List Nat :=
  let d := dedupFirst l
  if d.length ≤ 4 then List.insertionSort (fun a b => a % 8 ≤ b % 8) d
  else List.insertionSort (fun a b => a % 32 ≤ b % 32) d

/-- Embeds `QueryDecomposer.extract_years`: findall of `\b(20\d{2})\b`,
filtered to 2020..2025, then `list(set(years))`. -/
def extract_years (query : List Char) : List Nat :=
  pySetList ((yearScan none query).filter (fun y => 2020 ≤ y && y ≤ 2025))

/-- Embeds `QueryDecomposer.extract_metrics`: scan the metric table in order,
appending each canonical metric one of whose variants occurs in the lowercased
query, without duplicates. -/
def extract_metrics (query : List Char) : List (List Char) :=
  let query_lower := lowerStr query
  financial_metrics.foldl
    (fun metrics kv =>
      if kv.2.any (fun v => containsSub v query_lower) && !(metrics.contains kv.1) then
        metrics ++ [kv.1]
      else metrics)
    []

/-- Embeds `QueryDecomposer.classify_query_type`. -/
def classify_query_type (query : List Char) (companies : List (List Char))
    (years : List Nat) : QueryType :=
  let query_lower := lowerStr query
  if companies.length > 1
      || comparison_keywords.any (fun k => containsSub k query_lower) then
    .cross_company
  else if years.length > 1
      || temporal_keyword_list.any (fun k => containsSub k query_lower) then
    .comparative
  else if calculation_keywords.any (fun k => containsSub k query_lower) then
    .calculation
  else
    .simple_direct

/-- Minimum of a nonempty list of naturals, Python `min(years)` (0 if empty). -/
def listMin : List Nat → Nat
  | [] => 0
  | x :: xs => xs.foldl Nat.min x

/-- Maximum of a nonempty list of naturals, Python `max(years)` (0 if empty). -/
def listMax : List Nat → Nat
  | [] => 0
  | x :: xs => xs.foldl Nat.max x

/-- Embeds `QueryDecomposer.decompose_simple_query`. -/
def decompose_simple_query (query : List Char) (companies : List (List Char))
    (years : List Nat) (metrics : List (List Char)) : List SubQuery :=
  [{ text := query
     query_type := .simple_direct
     company := companies.head?
     year := years.head?
     metric := metrics.head? }]

/-- Embeds `QueryDecomposer.decompose_comparative_query`: with exactly one
company, more than one year and at least one metric, one simple sub-query per
year (in the order of `years`) plus, when exactly two years, a growth
calculation instruction; otherwise the empty list. -/
def decompose_comparative_query (query : List Char) (companies : List (List Char))
    (years : List Nat) (metrics : List (List Char)) : List SubQuery :=
  match companies, metrics with
  | [company], metric :: _ =>
    if years.length > 1 then
      (years.map fun year =>
        { text := company ++ ' ' :: metric ++ ' ' :: natChars year
          query_type := QueryType.simple_direct
          company := some company
          year := some year
          metric := some metric : SubQuery })
      ++ (if years.length = 2 then
            [{ text := str "Calculate growth from " ++ natChars (listMin years)
                  ++ str " to " ++ natChars (listMax years)
               query_type := QueryType.calculation
               company := some company
               metric := some metric : SubQuery }]
          else [])
    else []
  | _, _ => []

/-- The default cross-company roster. -/
def defaultRoster : List (List Char) := [str "GOOGL", str "MSFT", str "NVDA"]

/-- Embeds `QueryDecomposer.decompose_cross_company_query`. -/
def decompose_cross_company_query (query : List Char) (companies : List (List Char))
    (years : List Nat) (metrics : List (List Char)) : List SubQuery :=
  let year := years.head?
  let metric := metrics.head?
  let target_companies := if companies.isEmpty then defaultRoster else companies
  (target_companies.map fun company =>
    { text :=
        match metric, year with
        | some m, some y => company ++ ' ' :: m ++ ' ' :: natChars y
        | _, _ => company ++ ' ' :: query
      query_type := QueryType.simple_direct
      company := some company
      year := year
      metric := metric : SubQuery })
  ++ [{ text :=
          match metric with
          | some m => str "Compare " ++ m ++ str " across companies"
          | none => str "Compare across companies"
        query_type := QueryType.calculation
        metric := metric : SubQuery }]

/-- Embeds the `calculation_type` inference at the end of
`QueryDecomposer.decompose_query`. -/
def inferCalculationType (query : List Char) : List Char :=
  let query_lower := lowerStr query
  if growth_keywords.any (fun k => containsSub k query_lower) then str "growth"
  else if comparison_keywords.any (fun k => containsSub k query_lower) then
    str "comparison"
  else str "general"

/-- Embeds `QueryDecomposer.decompose_query`, the decomposition entry point. -/
def decompose_query (query : List Char) : DecomposedQuery :=
  let companies := extract_companies query
  let years := extract_years query
  let metrics := extract_metrics query
  let query_type := classify_query_type query companies years
  let pair : List SubQuery × Bool :=
    match query_type with
    | .simple_direct => (decompose_simple_query query companies years metrics, false)
    | .comparative => (decompose_comparative_query query companies years metrics, true)
    | .cross_company => (decompose_cross_company_query query companies years metrics, true)
    | _ => (decompose_simple_query query companies years metrics, true)
  { original_query := query
    query_type := query_type
    sub_queries := pair.1
    requires_calculation := pair.2
    calculation_type := if pair.2 then some (inferCalculationType query) else none }

/-! Numeric fact extraction (`MultiStepRetriever._extract_numbers_from_text`).
The regex `\$?(\d{1,3}(?:,\d{3})*(?:\.\d+)?)\s*(billion|million|thousand|B|M|K)?`
is embedded as a direct left-to-right scanner: at each position, an optional
dollar sign, one to three digits (greedy), any number of comma-plus-three-digit
groups, an optional decimal part, greedy whitespace, and an optional
case-insensitive unit token (alternatives tried in pattern order).
Matches are non-overlapping; the scan resumes after each match. -/

/-- Python regex `\s` white-space class (ASCII range). -/
def isPySpace (c : Char) : Bool :=
  c == ' ' || c == '\t' || c == '\n' || c == '\r' || c == '\x0b' || c == '\x0c'

/-- Greedy `\d{1,3}`: one to three leading digits, or failure. -/
def takeDigits1to3 : List Char → Option (List Char × List Char)
  | a :: b :: c :: rest =>
    if a.isDigit then
      if b.isDigit then
        if c.isDigit then some ([a, b, c], rest) else some ([a, b], c :: rest)
      else some ([a], b :: c :: rest)
    else none
  | a :: b :: rest =>
    if a.isDigit then
      if b.isDigit then some ([a, b], rest) else some ([a], b :: rest)
    else none
  | a :: rest => if a.isDigit then some ([a], rest) else none
  | [] => none

/-- Greedy `(?:,\d{3})*`: comma-separated three-digit groups. -/
def takeCommaGroups : List Char → List Char × List Char
  | ',' :: a :: b :: c :: rest =>
    if a.isDigit && b.isDigit && c.isDigit then
      let (g, r) := takeCommaGroups rest
      (',' :: a :: b :: c :: g, r)
    else ([], ',' :: a :: b :: c :: rest)
  | s => ([], s)

/-- Optional `(?:\.\d+)?`: a dot followed by at least one digit, greedily. -/
def takeDecimal : List Char → List Char × List Char
  | '.' :: rest =>
    let ds := rest.takeWhile Char.isDigit
    if ds.isEmpty then ([], '.' :: rest) else ('.' :: ds, rest.drop ds.length)
  | s => ([], s)

/-- Greedy `\s*`. -/
def takeSpaces (s : List Char) : List Char × List Char :=
  (s.takeWhile isPySpace, s.dropWhile isPySpace)

/-- Unit alternatives of the pattern, in alternation order. -/
def unitAlternatives : List (List Char) :=
  [str "billion", str "million", str "thousand", str "B", str "M", str "K"]

/-- Case-insensitive prefix test. -/
def ciStartsWith (p s : List Char) : Bool := (lowerStr p).isPrefixOf (lowerStr s)

/-- Optional unit token: first alternative that matches case-insensitively;
the captured text keeps the original casing of the input. -/
def matchUnit (s : List Char) : Option (List Char × List Char) :=
  match unitAlternatives.find? (fun u => ciStartsWith u s) with
  | some u => some (s.take u.length, s.drop u.length)
  | none => none

/-- One attempted match at the head of `s`: returns the whole match (group 0),
the numeric capture (group 1), the unit capture (group 2) and the remaining
text, or `none` when the pattern does not match here. -/
def matchNumAt (s : List Char) : Option (List Char × List Char × Option (List Char) × List Char) :=
  let (dollar, s1) : List Char × List Char :=
    match s with
    | '$' :: t => (['$'], t)
    | _ => ([], s)
  match takeDigits1to3 s1 with
  | none => none
  | some (d1, s2) =>
    let (grp, s3) := takeCommaGroups s2
    let (dec, s4) := takeDecimal s3
    let (sp, s5) := takeSpaces s4
    match matchUnit s5 with
    | some (u, s6) =>
      some (dollar ++ d1 ++ grp ++ dec ++ sp ++ u, d1 ++ grp ++ dec, some u, s6)
    | none =>
      some (dollar ++ d1 ++ grp ++ dec ++ sp, d1 ++ grp ++ dec, none, s5)

/-- A raw regex match with its capture groups and character offsets. -/
structure RawMatch where
  g0 : List Char
  g1 : List Char
  unit : Option (List Char)
  start : Nat
  stop : Nat
deriving DecidableEq

/-- Scanner for `re.finditer`: tries the pattern at each position, emitting
non-overlapping matches left to right.  `fuel` is an upper bound on the
remaining text length (every step consumes at least one character). -/
def scanNumbers : Nat → Nat → List Char → List RawMatch
  | 0, _, _ => []
  | _ + 1, _, [] => []
  | fuel + 1, pos, c :: rest =>
    match matchNumAt (c :: rest) with
    | some (g0, g1, u, rest') =>
      ⟨g0, g1, u, pos, pos + g0.length⟩ :: scanNumbers fuel (pos + g0.length) rest'
    | none => scanNumbers fuel (pos + 1) rest

/-- Digit string to natural number. -/
def digitsToNat (cs : List Char) : Nat :=
  cs.foldl (fun n c => 10 * n + (c.toNat - 48)) 0

/-- Fractional digits after a leading dot, empty otherwise. -/
def fracPart : List Char → List Char
  | '.' :: ds => ds
  | _ => []

/-- Embeds Python `float(value_str)` on the comma-free numeric captures the
regex produces (`digits` optionally followed by `.digits`); the value is exact
as a rational. -/
def parseDec (cs : List Char) : ℚ :=
  let intPart := cs.takeWhile Char.isDigit
  let frac := fracPart (cs.drop intPart.length)
  (digitsToNat intPart : ℚ) + (digitsToNat frac : ℚ) / ((10 : ℚ) ^ frac.length)

/-- Unit normalization of `_extract_numbers_from_text`: billion/B ×1e9,
million/M ×1e6, thousand/K ×1e3, otherwise ×1, case-insensitively. -/
def unitFactor : Option (List Char) → ℚ
  | some unit =>
    let ul := lowerStr unit
    if ul = str "billion" ∨ ul = str "b" then 1000000000
    else if ul = str "million" ∨ ul = str "m" then 1000000
    else if ul = str "thousand" ∨ ul = str "k" then 1000
    else 1
  | none => 1

/-- One extracted number with context (the dict appended to `numbers`). -/
structure NumberEntry where
  value : ℚ
  original_text : List Char
  context : List Char
  unit : Option (List Char)
deriving DecidableEq

/-- Python `str.strip()` on ASCII whitespace. -/
def stripChars (s : List Char) : List Char :=
  ((s.dropWhile isPySpace).reverse.dropWhile isPySpace).reverse

/-- The ±50-character context snippet `text[max(0, start-50) : min(len, end+50)].strip()`
(natural-number subtraction already truncates at zero). -/
def contextSlice (t : List Char) (start stop : Nat) : List Char :=
  stripChars ((t.drop (start - 50)).take (min t.length (stop + 50) - (start - 50)))

/-- Builds the entry recorded for one raw match: the parsed value (commas
removed) scaled by the unit factor, the matched text, the context snippet and
the captured unit. -/
def mkNumberEntry (t : List Char) (m : RawMatch) : NumberEntry :=
  { value := parseDec (m.g1.filter (fun c => c ≠ ',')) * unitFactor m.unit
    original_text := m.g0
    context := contextSlice t m.start m.stop
    unit := m.unit }

/-- Embeds `MultiStepRetriever._extract_numbers_from_text`.  The `metric`
argument is accepted but, as in the source, never used.  The
`try/except ValueError` around `float(...)` can never fire on a regex-shaped
capture, so every match yields an entry. -/
def extract_numbers_from_text (text : List Char)
    (_metric : Option (List Char) := none) : List NumberEntry :=
  (scanNumbers text.length 0 text).map (mkNumberEntry text)

/-! Vector store (`VectorStore.similarity_search`) and retrieval
(`MultiStepRetriever.retrieve_for_sub_query` / `retrieve_multi_step`).
The embedding+search capability is an explicit `Except` outcome: `.ok pts`
when the external calls return scored points, `.error e` when any of them
raises. -/

/-- A stored chunk as the search capability returns it (the payload fields of
a scored point / the formatted result dict). -/
structure Chunk where
  score : ℚ
  chunk_id : List Char
  content : List Char
  company : List Char
  year : Nat
  section' : Option (List Char)
  source_file : List Char
  metadata : List Char
deriving DecidableEq

/-- Embeds `VectorStore.similarity_search`: on success each scored point is
re-packaged into a result dict; any exception from the embedding or search
calls is caught and an empty list returned (`except ... return []`). -/
def similarity_search (outcome : Except (List Char) (List Chunk)) : List Chunk :=
  match outcome with
  | .ok pts =>
    pts.map (fun p =>
      { score := p.score, chunk_id := p.chunk_id, content := p.content,
        company := p.company, year := p.year, section' := p.section',
        source_file := p.source_file, metadata := p.metadata })
  | .error _ => []

/-- Result from a single retrieval step (`RetrievalResult` dataclass). -/
structure RetrievalResult where
  sub_query : SubQuery
  retrieved_chunks : List Chunk
  relevance_scores : List ℚ
deriving DecidableEq

/-- Embeds `MultiStepRetriever.retrieve_for_sub_query`: always returns a
`RetrievalResult`, with whatever `similarity_search` produced. -/
def retrieve_for_sub_query (sub_query : SubQuery)
    (outcome : Except (List Char) (List Chunk)) : RetrievalResult :=
  let search_results := similarity_search outcome
  { sub_query := sub_query
    retrieved_chunks := search_results
    relevance_scores := search_results.map (·.score) }

/-- Embeds `MultiStepRetriever.retrieve_multi_step`: iterate sub-queries in
order, skipping CALCULATION ones; `search` gives, per sub-query, the external
outcome. -/
def retrieve_multi_step (dq : DecomposedQuery)
    (search : SubQuery → Except (List Char) (List Chunk)) : List RetrievalResult :=
  (dq.sub_queries.filter
    (fun sq => decide (sq.query_type ≠ QueryType.calculation))).map
    (fun sq => retrieve_for_sub_query sq (search sq))

/-! Evidence synthesis (`MultiStepRetriever.synthesize_context`). -/

/-- A chunk tagged with its originating sub-query
(`{**chunk, "sub_query": result.sub_query.text}`). -/
structure TaggedChunk where
  chunk : Chunk
  sub_query : List Char
deriving DecidableEq

/-- One step of the deduplication loop: append the chunk (tagged) and record
its id unless the id was already seen. -/
def dedupChunkStep (sqText : List Char) (acc : List TaggedChunk × List (List Char))
    (c : Chunk) : List TaggedChunk × List (List Char) :=
  if c.chunk_id ∈ acc.2 then acc
  else (acc.1 ++ [⟨c, sqText⟩], acc.2 ++ [c.chunk_id])

/-- The nested flatten-and-deduplicate loops of `synthesize_context`,
accumulating `(all_chunks, seen_chunk_ids)`. -/
def collectChunks (rs : List RetrievalResult) : List TaggedChunk × List (List Char) :=
  rs.foldl (fun acc r => r.retrieved_chunks.foldl (dedupChunkStep r.sub_query.text) acc)
    ([], [])

/-- The deduplicated chunk list (`all_chunks` after the loops). -/
def all_chunks (rs : List RetrievalResult) : List TaggedChunk := (collectChunks rs).1

/-- Ranking relation: `a` may precede `b` when the score of `a` is at least the score of `b`. -/
def scoreGE (a b : TaggedChunk) : Prop := b.chunk.score ≤ a.chunk.score

instance : DecidableRel scoreGE :=
  fun a b => inferInstanceAs (Decidable (b.chunk.score ≤ a.chunk.score))

instance : IsTotal TaggedChunk scoreGE :=
  ⟨fun a b => le_total b.chunk.score a.chunk.score⟩

instance : IsTrans TaggedChunk scoreGE :=
  ⟨fun _ _ _ hab hbc => le_trans hbc hab⟩

/-- Embeds `all_chunks.sort(key=lambda x: x["score"], reverse=True)`: the Python
sort is stable, and a stable descending sort is exactly stable insertion sort
under `scoreGE` (ties keep their original relative order). -/
def sortChunksDesc (l : List TaggedChunk) : List TaggedChunk :=
  List.insertionSort scoreGE l

/-- The deduplicated, ranked chunk list of the Evidence Synthesizer. -/
def sorted_chunks (rs : List RetrievalResult) : List TaggedChunk :=
  sortChunksDesc (all_chunks rs)

/-- The chunks actually rendered: `all_chunks[:10]`. -/
def rendered_chunks (rs : List RetrievalResult) : List TaggedChunk :=
  (sorted_chunks rs).take 10

/-- Python `section or "General"`. -/
def orGeneral : Option (List Char) → List Char
  | some s => if s.isEmpty then str "General" else s
  | none => str "General"

/-- Round-half-even of a rational to an integer, the rounding that the Python `.3f`
formatting performs (scores are modelled as exact rationals). -/
def roundHalfEven (q : ℚ) : ℤ :=
  let f := ⌊q⌋
  let r := q - (f : ℚ)
  if r < 1 / 2 then f
  else if 1 / 2 < r then f + 1
  else if f % 2 = 0 then f else f + 1

/-- Fixed three-decimal rendering `f"{score:.3f}"`. -/
def format3 (q : ℚ) : List Char :=
  let m := roundHalfEven (q * 1000)
  let a := m.natAbs
  let fracDigits := natChars (a % 1000)
  (if q < 0 then ['-'] else [])
    ++ natChars (a / 1000) ++ '.' :: (List.replicate (3 - fracDigits.length) '0' ++ fracDigits)

/-- The five context lines rendered for the `i`-th kept chunk. -/
def renderChunkEntry (i : Nat) (tc : TaggedChunk) : List (List Char) :=
  [str "### Relevant Information " ++ natChars (i + 1),
   str "**Source**: " ++ tc.chunk.company ++ ' ' :: natChars tc.chunk.year
     ++ str " (" ++ orGeneral tc.chunk.section' ++ str ")",
   str "**Relevance**: " ++ format3 tc.chunk.score,
   str "**Content**: " ++ tc.chunk.content.take 1000 ++ str "...",
   str ""]

/-- Embeds `MultiStepRetriever.synthesize_context`: header lines, then the
rendered entries of at most the top ten chunks, joined with newlines. -/
def synthesize_context (rs : List RetrievalResult) (dq : DecomposedQuery) : List Char :=
  let parts :=
    [str "Query: " ++ dq.original_query,
     str "Query Type: " ++ dq.query_type.value,
     str ""]
    ++ (rendered_chunks rs).enum.flatMap (fun p => renderChunkEntry p.1 p.2)
  List.intercalate ['\n'] parts

/-! Calculation-data extraction (`MultiStepRetriever.extract_financial_data`).
`calculation_data` is a Python dict, modelled as an insertion-ordered
association list with unique keys. -/

/-- One value of `calculation_data` (the per-company-year record). -/
structure CalcEntry where
  company : List Char
  year : Nat
  chunks : List Chunk
  metrics : List (Option (List Char) × List NumberEntry)
deriving DecidableEq

/-- Dict update `metrics[metric].extend(numbers)`, creating the key first when
absent. -/
def upsertMetric : List (Option (List Char) × List NumberEntry) →
    Option (List Char) → List NumberEntry → List (Option (List Char) × List NumberEntry)
  | [], m, ns => [(m, ns)]
  | (k, vs) :: rest, m, ns =>
    if k = m then (k, vs ++ ns) :: rest else (k, vs) :: upsertMetric rest m ns

/-- The inner per-chunk loop body: extract numbers from the chunk text and, if
any, extend the list under that metric. -/
def processChunk (metric : Option (List Char)) (e : CalcEntry) (c : Chunk) : CalcEntry :=
  let numbers := extract_numbers_from_text c.content metric
  if numbers.isEmpty then e
  else { e with metrics := upsertMetric e.metrics metric numbers }

/-- First-match lookup in the association list. -/
def lookupKey : List (List Char × CalcEntry) → List Char → Option CalcEntry
  | [], _ => none
  | (k', e') :: rest, k => if k' = k then some e' else lookupKey rest k

/-- Replace the entry at an existing key, or append a new binding. -/
def upsertKey : List (List Char × CalcEntry) → List Char → CalcEntry →
    List (List Char × CalcEntry)
  | [], k, e => [(k, e)]
  | (k', e') :: rest, k, e =>
    if k' = k then (k, e) :: rest else (k', e') :: upsertKey rest k e

/-- One iteration of the `for result in retrieval_results` loop: results whose
sub-query lacks a company or a year (`if company and year`; companies are
non-empty tickers and years are in 2020..2025, so Python truthiness coincides
with presence) leave the dict unchanged; otherwise the `{company}_{year}`
entry is created if needed, its chunk list extended, and the numbers extracted
from each chunk appended under the metric of the sub-query. -/
def calcStep (cd : List (List Char × CalcEntry)) (r : RetrievalResult) :
    List (List Char × CalcEntry) :=
  match r.sub_query.company, r.sub_query.year with
  | some company, some year =>
    let key := company ++ '_' :: natChars year
    let base : CalcEntry :=
      match lookupKey cd key with
      | some e => e
      | none => { company := company, year := year, chunks := [], metrics := [] }
    let e1 := { base with chunks := base.chunks ++ r.retrieved_chunks }
    let e2 := r.retrieved_chunks.foldl (processChunk r.sub_query.metric) e1
    upsertKey cd key e2
  | _, _ => cd

/-- Embeds `MultiStepRetriever.extract_financial_data`. -/
def extract_financial_data (retrieval_results : List RetrievalResult)
    (decomposed_query : DecomposedQuery) : List (List Char × CalcEntry) :=
  if !decomposed_query.requires_calculation then []
  else retrieval_results.foldl calcStep []

/-! Pipeline orchestration (`MultiStepRetriever.process_query`,
`MultiStepRetriever.generate_final_answer`,
`FinancialRAGAssistant.answer_query`). -/

/-- Synthesized context artifact (`ContextSynthesis` dataclass). -/
structure ContextSynthesis where
  original_query : List Char
  decomposed_query : DecomposedQuery
  retrieval_results : List RetrievalResult
  synthesized_context : List Char
  requires_calculation : Bool
  calculation_data : Option (List (List Char × CalcEntry)) := none
deriving DecidableEq

/-- Embeds `MultiStepRetriever.process_query` end-to-end, with the search
capability as an explicit parameter. -/
def process_query (query : List Char)
    (search : SubQuery → Except (List Char) (List Chunk)) : ContextSynthesis :=
  let dq := decompose_query query
  let rs := retrieve_multi_step dq search
  { original_query := query
    decomposed_query := dq
    retrieval_results := rs
    synthesized_context := synthesize_context rs dq
    requires_calculation := dq.requires_calculation
    calculation_data :=
      if dq.requires_calculation then some (extract_financial_data rs dq) else none }

/-- Embeds `MultiStepRetriever.generate_final_answer`: the prompt is handed to
the external model (abstracted as the outcome parameter); an exception from the
call is caught and turned into an `"Error generating answer: ..."` string. -/
def generate_final_answer (outcome : Except (List Char) (List Char)) : List Char :=
  match outcome with
  | .ok content => content
  | .error e => str "Error generating answer: " ++ e

/-- The message returned when the system is not initialized. -/
def initErrorMsg : List Char := str "❌ System not initialized. Please run setup first."

/-- Embeds `FinancialRAGAssistant.answer_query`: inside one `try`, return the
initialization message when not set up, otherwise run the pipeline and the
final generation; any exception raised by the pipeline stages is caught and
returned as an `"Error: ..."` string.  `process_outcome` is the outcome of
`process_query` (which can raise only through external calls it does not
catch), `generation_outcome` that of the language-model call inside
`generate_final_answer` (which catches its own exceptions). -/
def answer_query (is_initialized : Bool)
    (process_outcome : Except (List Char) ContextSynthesis)
    (generation_outcome : Except (List Char) (List Char)) : List Char :=
  if !is_initialized then initErrorMsg
  else
    match process_outcome with
    | .ok _ => generate_final_answer generation_outcome
    | .error e => str "Error: " ++ e

/-! Specification-side descriptions and concrete fixtures used by the
theorems below. -/

/-- The flattened, tagged chunk stream of a retrieval-result list, in
iteration order of the two nested loops of `synthesize_context`. -/
def flat_tagged (rs : List RetrievalResult) : List TaggedChunk :=
  rs.flatMap (fun r => r.retrieved_chunks.map (fun c => ⟨c, r.sub_query.text⟩))

/-- Specification-side description of the deduplication policy: walk the
stream once and keep each chunk whose id has not been seen before. -/
def specDedupKeepFirst (seen : List (List Char)) : List TaggedChunk → List TaggedChunk
  | [] => []
  | t :: ts =>
    if t.chunk.chunk_id ∈ seen then specDedupKeepFirst seen ts
    else t :: specDedupKeepFirst (seen ++ [t.chunk.chunk_id]) ts

/-- The chunk-level transformation of the Evidence Synthesizer: deduplicate by
first occurrence, then rank by descending score. -/
def dedupRank (l : List TaggedChunk) : List TaggedChunk :=
  sortChunksDesc (specDedupKeepFirst [] l)

/-- A concrete chunk fixture with a given id and score. -/
def exChunk (i : Nat) (s : ℚ) : Chunk :=
  { score := s, chunk_id := natChars i, content := str "Total revenue was $198.3 billion",
    company := str "MSFT", year := 2023, section' := none,
    source_file := str "msft_2023.html", metadata := str "" }

/-- A concrete retrieval result carrying three chunks with scores
0.2, 0.9, 0.5 in that order. -/
def exResult : RetrievalResult :=
  { sub_query := { text := str "MSFT revenue 2023", query_type := .simple_direct,
                   company := some (str "MSFT"), year := some 2023,
                   metric := some (str "revenue") }
    retrieved_chunks := [exChunk 1 (1/5), exChunk 2 (9/10), exChunk 3 (1/2)]
    relevance_scores := [1/5, 9/10, 1/2] }

/-- The deduplication step of `synthesize_context` re-expressed on an already
tagged chunk (what `dedupChunkStep` does once the sub-query text has been
attached). -/
def tagStep (acc : List TaggedChunk × List (List Char)) (t : TaggedChunk) :
    List TaggedChunk × List (List Char) :=
  if t.chunk.chunk_id ∈ acc.2 then acc
  else (acc.1 ++ [t], acc.2 ++ [t.chunk.chunk_id])

/-- The first fixture chunk (score 0.2), tagged. -/
def exT1 : TaggedChunk := ⟨exChunk 1 (1/5), str "MSFT revenue 2023"⟩

/-- The second fixture chunk (score 0.9), tagged. -/
def exT2 : TaggedChunk := ⟨exChunk 2 (9/10), str "MSFT revenue 2023"⟩

/-- The third fixture chunk (score 0.5), tagged. -/
def exT3 : TaggedChunk := ⟨exChunk 3 (1/2), str "MSFT revenue 2023"⟩

/-- A concrete decomposed query with `requires_calculation = false`. -/
def dqSimple : DecomposedQuery :=
  { original_query := str "What was Microsoft total revenue in 2023?"
    query_type := .simple_direct
    sub_queries := []
    requires_calculation := false
    calculation_type := none }

/-! Theorems. -/

/-- Helper: a comparative decomposition is empty exactly when its precondition
(exactly one company, more than one year, at least one metric) fails. -/
theorem decompose_comparative_query_eq_nil_iff (q : List Char)
    (cs : List (List Char)) (ys : List Nat) (ms : List (List Char)) :
    decompose_comparative_query q cs ys ms = [] ↔
      ¬(cs.length = 1 ∧ 1 < ys.length ∧ ms ≠ []) := by
  match cs, ms with
  | [], _ => simp [decompose_comparative_query]
  | [c], [] => simp [decompose_comparative_query]
  | [c], m :: ms' =>
    simp only [decompose_comparative_query]
    by_cases h : 1 < ys.length
    · match ys, h with
      | y1 :: y2 :: ys', _ =>
        simp [h, List.cons_ne_nil]
    · simp [Nat.lt_iff_add_one_le] at h ⊢
      omega
  | c1 :: c2 :: cs', _ => simp [decompose_comparative_query]

/-- C1: the claim that `decompose_query` always produces a non-empty sub-query
list, with a SIMPLE_DIRECT fallback for a COMPARATIVE query missing its
precondition, is false: the query "growth" is classified COMPARATIVE (the
temporal keyword "growth"), extracts no company, year or metric, and
decomposes to the empty sub-query list — no fallback sub-query is produced. -/
theorem C1_counterexample :
    (decompose_query (str "growth")).sub_queries = [] ∧
    (decompose_query (str "growth")).query_type = QueryType.comparative := by
  constructor <;> decide

/-- C1 (amended): the sub-query list of `decompose_query` is empty exactly
when the query is classified COMPARATIVE and the comparative precondition
(exactly one extracted company, more than one extracted year, at least one
extracted metric) fails; in every other case — including SIMPLE_DIRECT,
CALCULATION and CROSS_COMPANY classifications — it is non-empty.  The failing
COMPARATIVE case yields an empty list, not a SIMPLE_DIRECT fallback and not
an error. -/
theorem C1_sub_queries_empty_iff (q : List Char) :
    (decompose_query q).sub_queries = [] ↔
      (classify_query_type q (extract_companies q) (extract_years q) =
          QueryType.comparative ∧
        ¬((extract_companies q).length = 1 ∧ 1 < (extract_years q).length ∧
          extract_metrics q ≠ [])) := by
  simp only [decompose_query]
  cases hcls : classify_query_type q (extract_companies q) (extract_years q) with
  | simple_direct => simp [decompose_simple_query]
  | comparative => simp [decompose_comparative_query_eq_nil_iff]
  | cross_company => simp [decompose_cross_company_query]
  | temporal => simp [decompose_simple_query]
  | calculation => simp [decompose_simple_query]

/-- Helper: evaluation of the extractor on "$198.3 billion". -/
theorem extract_on_198_3_billion :
    extract_numbers_from_text (str "$198.3 billion") =
      [{ value := 198300000000, original_text := str "$198.3 billion",
         context := str "$198.3 billion", unit := some (str "billion") }] := by
  have hv : parseDec ((str "198.3").filter (fun c => c ≠ ',')) *
      unitFactor (some (str "billion")) = 198300000000 := by
    rw [show (str "198.3").filter (fun c => c ≠ ',') = str "198.3" from by decide]
    simp only [parseDec]
    rw [show (str "198.3").takeWhile Char.isDigit = str "198" from rfl,
      show (str "198.3").drop (str "198").length = str ".3" from rfl,
      show fracPart (str ".3") = str "3" from rfl,
      show digitsToNat (str "198") = 198 from rfl,
      show digitsToNat (str "3") = 3 from rfl,
      show (str "3").length = 1 from rfl,
      show unitFactor (some (str "billion")) = 1000000000 from by decide]
    norm_num
  rw [extract_numbers_from_text,
    show scanNumbers (str "$198.3 billion").length 0 (str "$198.3 billion") =
      [⟨str "$198.3 billion", str "198.3", some (str "billion"), 0, 14⟩] from by decide]
  simp only [List.map_cons, List.map_nil, List.cons.injEq, and_true,
    mkNumberEntry, NumberEntry.mk.injEq]
  exact ⟨hv, trivial, by decide⟩

/-- Helper: evaluation of the extractor on "2,500 million". -/
theorem extract_on_2500_million :
    extract_numbers_from_text (str "2,500 million") =
      [{ value := 2500000000, original_text := str "2,500 million",
         context := str "2,500 million", unit := some (str "million") }] := by
  have hv : parseDec ((str "2,500").filter (fun c => c ≠ ',')) *
      unitFactor (some (str "million")) = 2500000000 := by
    rw [show (str "2,500").filter (fun c => c ≠ ',') = str "2500" from by decide]
    simp only [parseDec]
    rw [show (str "2500").takeWhile Char.isDigit = str "2500" from rfl,
      show (str "2500").drop (str "2500").length = ([] : List Char) from rfl,
      show fracPart [] = [] from rfl,
      show digitsToNat (str "2500") = 2500 from rfl,
      show digitsToNat [] = 0 from rfl,
      show ([] : List Char).length = 0 from rfl,
      show unitFactor (some (str "million")) = 1000000 from by decide]
    norm_num
  rw [extract_numbers_from_text,
    show scanNumbers (str "2,500 million").length 0 (str "2,500 million") =
      [⟨str "2,500 million", str "2,500", some (str "million"), 0, 13⟩] from by decide]
  simp only [List.map_cons, List.map_nil, List.cons.injEq, and_true,
    mkNumberEntry, NumberEntry.mk.injEq]
  exact ⟨hv, trivial, by decide⟩

/-- Helper: evaluation of the extractor on "garbage123abc": the digit run
"123" matches with no unit. -/
theorem extract_on_garbage123abc :
    extract_numbers_from_text (str "garbage123abc") =
      [{ value := 123, original_text := str "123",
         context := str "garbage123abc", unit := none }] := by
  have hv : parseDec ((str "123").filter (fun c => c ≠ ',')) *
      unitFactor none = 123 := by
    rw [show (str "123").filter (fun c => c ≠ ',') = str "123" from by decide]
    simp only [parseDec]
    rw [show (str "123").takeWhile Char.isDigit = str "123" from rfl,
      show (str "123").drop (str "123").length = ([] : List Char) from rfl,
      show fracPart [] = [] from rfl,
      show digitsToNat (str "123") = 123 from rfl,
      show digitsToNat [] = 0 from rfl,
      show ([] : List Char).length = 0 from rfl,
      show unitFactor none = 1 from by decide]
    norm_num
  rw [extract_numbers_from_text,
    show scanNumbers (str "garbage123abc").length 0 (str "garbage123abc") =
      [⟨str "123", str "123", none, 7, 10⟩] from by decide]
  simp only [List.map_cons, List.map_nil, List.cons.injEq, and_true,
    mkNumberEntry, NumberEntry.mk.injEq]
  exact ⟨hv, trivial, by decide⟩

/-- C2: the third example of the claim is false: on "garbage123abc" the numeric
pattern matches the bare digit run "123" (no unit), so one number with value
123.0 is extracted, not none. -/
theorem C2_counterexample :
    extract_numbers_from_text (str "garbage123abc") =
      [{ value := 123, original_text := str "123",
         context := str "garbage123abc", unit := none }] :=
  extract_on_garbage123abc

/-- C2 (amended): every matched monetary figure is normalized by its unit
token (billion/B ×1e9, million/M ×1e6, thousand/K ×1e3, no unit ×1, case
insensitively), and on the given inputs: "$198.3 billion" yields value
198300000000.0 with unit "billion", "2,500 million" yields 2500000000.0 with
unit "million"; but "garbage123abc" yields one extracted number of value 123.0
with no unit (a bare digit run matches the pattern), not no number. -/
theorem C2_extraction :
    extract_numbers_from_text (str "$198.3 billion") =
      [{ value := 198300000000, original_text := str "$198.3 billion",
         context := str "$198.3 billion", unit := some (str "billion") }] ∧
    extract_numbers_from_text (str "2,500 million") =
      [{ value := 2500000000, original_text := str "2,500 million",
         context := str "2,500 million", unit := some (str "million") }] ∧
    extract_numbers_from_text (str "garbage123abc") =
      [{ value := 123, original_text := str "123",
         context := str "garbage123abc", unit := none }] ∧
    (∀ u, lowerStr u = str "billion" ∨ lowerStr u = str "b" →
      unitFactor (some u) = 1000000000) ∧
    (∀ u, lowerStr u = str "million" ∨ lowerStr u = str "m" →
      unitFactor (some u) = 1000000) ∧
    (∀ u, lowerStr u = str "thousand" ∨ lowerStr u = str "k" →
      unitFactor (some u) = 1000) ∧
    unitFactor none = 1 ∧
    (∀ t m e, e ∈ extract_numbers_from_text t m →
      ∃ r : RawMatch, e = mkNumberEntry t r ∧
        e.value = parseDec (r.g1.filter (fun c => c ≠ ',')) * unitFactor r.unit ∧
        e.unit = r.unit) := by
  refine ⟨extract_on_198_3_billion, extract_on_2500_million,
    extract_on_garbage123abc, ?_, ?_, ?_, by decide, ?_⟩
  · intro u hu
    rcases hu with h | h <;> (simp only [unitFactor]; rw [h]; decide)
  · intro u hu
    rcases hu with h | h <;> (simp only [unitFactor]; rw [h]; decide)
  · intro u hu
    rcases hu with h | h <;> (simp only [unitFactor]; rw [h]; decide)
  · intro t m e he
    rcases List.mem_map.1 he with ⟨r, _, rfl⟩
    exact ⟨r, rfl, rfl, rfl⟩

/-- C2 witness: the general normalization conjunct applied to the single entry
extracted from "garbage123abc". -/
theorem C2_extraction_witness :
    ∃ r : RawMatch,
      ({ value := 123, original_text := str "123",
         context := str "garbage123abc", unit := none } : NumberEntry) =
          mkNumberEntry (str "garbage123abc") r ∧
        ({ value := 123, original_text := str "123",
           context := str "garbage123abc", unit := none } : NumberEntry).value =
          parseDec (r.g1.filter (fun c => c ≠ ',')) * unitFactor r.unit ∧
        ({ value := 123, original_text := str "123",
           context := str "garbage123abc", unit := none } : NumberEntry).unit = r.unit :=
  C2_extraction.2.2.2.2.2.2.2 (str "garbage123abc") none _
    (by rw [extract_on_garbage123abc]; exact List.mem_singleton_self _)

/-- C3: the claim is false: an exception from the search capability is caught
inside `similarity_search` and converted to an empty result list, so a failing
search is indistinguishable from a search that succeeds with zero results —
the exact conflation the claim rules out. -/
theorem C3_counterexample :
    similarity_search (Except.error (str "embedding service unavailable")) =
      similarity_search (Except.ok []) ∧
    retrieve_for_sub_query
        { text := str "MSFT revenue 2023", query_type := .simple_direct }
        (Except.error (str "embedding service unavailable")) =
      retrieve_for_sub_query
        { text := str "MSFT revenue 2023", query_type := .simple_direct }
        (Except.ok []) :=
  ⟨rfl, rfl⟩

/-- C3 (amended): when the search capability raises during a sub-query
retrieval, `similarity_search` catches the exception and returns an empty
list, so the `RetrievalResult` of the sub-query has zero chunks — identical to a
genuine zero-result outcome — and no stage-level failure is surfaced for that
query; only a generation-stage exception produces a distinct stage-naming
error string ("Error generating answer: ..."). -/
theorem C3_search_error_swallowed :
    ∀ (e : List Char) (sq : SubQuery),
      similarity_search (Except.error e) = [] ∧
      retrieve_for_sub_query sq (Except.error e) =
        { sub_query := sq, retrieved_chunks := [], relevance_scores := [] } ∧
      retrieve_for_sub_query sq (Except.error e) =
        retrieve_for_sub_query sq (Except.ok []) ∧
      (∀ ge, generate_final_answer (Except.error ge) =
        str "Error generating answer: " ++ ge) :=
  fun _ _ => ⟨rfl, rfl, rfl, fun _ => rfl⟩

/-- Helper: elements produced by the first-occurrence deduplication come from
the input list. -/
theorem mem_of_mem_dedupFirstAux :
    ∀ (l seen : List Nat) (x : Nat), x ∈ dedupFirstAux seen l → x ∈ l := by
  intro l
  induction l with
  | nil => intro seen x h; simp [dedupFirstAux] at h
  | cons a as ih =>
    intro seen x h
    simp only [dedupFirstAux] at h
    split at h
    · exact List.mem_cons_of_mem _ (ih seen x h)
    · rcases List.mem_cons.1 h with rfl | h'
      · exact List.mem_cons_self _ _
      · exact List.mem_cons_of_mem _ (ih _ x h')

/-- Helper: the deduplication never emits an element of the seen-set. -/
theorem notMem_seen_of_mem_dedupFirstAux :
    ∀ (l seen : List Nat) (x : Nat), x ∈ dedupFirstAux seen l → x ∉ seen := by
  intro l
  induction l with
  | nil => intro seen x h; simp [dedupFirstAux] at h
  | cons a as ih =>
    intro seen x h
    simp only [dedupFirstAux] at h
    split at h
    · exact ih seen x h
    · rcases List.mem_cons.1 h with rfl | h'
      · assumption
      · intro hx
        exact ih _ x h' (List.mem_cons_of_mem _ hx)

/-- Helper: the first-occurrence deduplication has no duplicates. -/
theorem nodup_dedupFirstAux : ∀ (l seen : List Nat), (dedupFirstAux seen l).Nodup := by
  intro l
  induction l with
  | nil => intro seen; simp [dedupFirstAux]
  | cons a as ih =>
    intro seen
    simp only [dedupFirstAux]
    split
    · exact ih seen
    · refine List.nodup_cons.2 ⟨fun hmem => ?_, ih _⟩
      exact notMem_seen_of_mem_dedupFirstAux as _ a hmem (List.mem_cons_self _ _)

/-- Helper: every extracted year lies in the filter range 2020..2025. -/
theorem extract_years_mem_bounds (q : List Char) (y : Nat)
    (h : y ∈ extract_years q) : 2020 ≤ y ∧ y ≤ 2025 := by
  unfold extract_years pySetList at h
  simp only at h
  split at h <;>
  · rw [List.mem_insertionSort] at h
    have hl := mem_of_mem_dedupFirstAux _ _ _ h
    have := (List.mem_filter.1 hl).2
    simp only [Bool.and_eq_true, decide_eq_true_eq] at this
    exact this

/-- Helper: the extracted year list has no duplicates. -/
theorem extract_years_nodup (q : List Char) : (extract_years q).Nodup := by
  unfold extract_years pySetList
  simp only
  split <;>
  · rw [(List.perm_insertionSort _ _).nodup_iff]
    exact nodup_dedupFirstAux _ _

/-- Helper: a two-element extracted year list is ordered by ascending residue
modulo 8 — the CPython set-iteration order for at most four small ints. -/
theorem extract_years_pair_mod8 (q : List Char) (y1 y2 : Nat)
    (h : extract_years q = [y1, y2]) : y1 % 8 ≤ y2 % 8 := by
  unfold extract_years pySetList at h
  simp only at h
  split at h
  · haveI : IsTotal Nat (fun a b => a % 8 ≤ b % 8) := ⟨fun a b => Nat.le_total _ _⟩
    haveI : IsTrans Nat (fun a b => a % 8 ≤ b % 8) :=
      ⟨fun _ _ _ hab hbc => Nat.le_trans hab hbc⟩
    have hs := List.sorted_insertionSort (fun a b => a % 8 ≤ b % 8)
      (dedupFirst ((yearScan none q).filter (fun y => 2020 ≤ y && y ≤ 2025)))
    rw [h, List.sorted_cons] at hs
    exact hs.1 y2 (List.mem_cons_self _ _)
  · exfalso
    rename_i hcond
    have hlen := List.length_insertionSort (fun a b => a % 32 ≤ b % 32)
      (dedupFirst ((yearScan none q).filter (fun y => 2020 ≤ y && y ≤ 2025)))
    rw [h] at hlen
    simp at hlen
    omega

/-- C4: the ascending-year-order requirement of the claim is false: for the query
"Microsoft revenue growth from 2023 to 2024" (one company, two years, one
metric, classified COMPARATIVE) the two SIMPLE_DIRECT sub-queries come out in
the order 2024, 2023 — `extract_years` returns `list(set(...))`, whose CPython
iteration order for {2023, 2024} is [2024, 2023] — though the CALCULATION text
still uses min and max correctly. -/
theorem C4_counterexample :
    (decompose_query (str "Microsoft revenue growth from 2023 to 2024")).sub_queries.map
        (fun s => s.year) = [some 2024, some 2023, none] ∧
    (decompose_query (str "Microsoft revenue growth from 2023 to 2024")).sub_queries.map
        (fun s => s.text) =
      [str "MSFT revenue 2024", str "MSFT revenue 2023",
       str "Calculate growth from 2023 to 2024"] := by
  constructor <;> decide

/-- C4 (amended): for every query from which extraction yields exactly one
tracked company, exactly two (distinct, in-range) years and at least one
recognized metric, and which is classified COMPARATIVE, decomposition yields
exactly 3 sub-queries: two SIMPLE_DIRECT sub-queries with text
"{company} {metric} {year}", one per year in the order produced by
`extract_years` (the CPython set-iteration order, ascending by year mod 8 —
not always ascending by value), followed by one CALCULATION sub-query
"Calculate growth from {min_year} to {max_year}". -/
theorem C4_two_year_comparative (q c m : List Char) (ms : List (List Char))
    (y1 y2 : Nat)
    (hc : extract_companies q = [c])
    (hy : extract_years q = [y1, y2])
    (hm : extract_metrics q = m :: ms)
    (hcls : classify_query_type q (extract_companies q) (extract_years q) =
      QueryType.comparative) :
    (decompose_query q).sub_queries =
      [{ text := c ++ ' ' :: m ++ ' ' :: natChars y1, query_type := .simple_direct,
         company := some c, year := some y1, metric := some m },
       { text := c ++ ' ' :: m ++ ' ' :: natChars y2, query_type := .simple_direct,
         company := some c, year := some y2, metric := some m },
       { text := str "Calculate growth from " ++ natChars (Nat.min y1 y2)
           ++ str " to " ++ natChars (Nat.max y1 y2), query_type := .calculation,
         company := some c, metric := some m }] ∧
    y1 % 8 < y2 % 8 := by
  constructor
  · have hcls' : classify_query_type q [c] [y1, y2] = QueryType.comparative := by
      rw [← hc, ← hy]; exact hcls
    simp only [decompose_query, hc, hy, hm, hcls']
    simp [decompose_comparative_query, listMin, listMax]
  · have hle := extract_years_pair_mod8 q y1 y2 hy
    have hne : y1 ≠ y2 := by
      have := extract_years_nodup q
      rw [hy] at this
      simpa using (List.nodup_cons.1 this).1
    have hb1 := extract_years_mem_bounds q y1 (by rw [hy]; simp)
    have hb2 := extract_years_mem_bounds q y2 (by rw [hy]; simp)
    omega

/-- C4 witness: the amended statement applied to the concrete query
"How did NVIDIA data center revenue grow from 2022 to 2023?". -/
theorem C4_two_year_comparative_witness :
    (decompose_query
        (str "How did NVIDIA data center revenue grow from 2022 to 2023?")).sub_queries =
      [{ text := str "NVDA" ++ ' ' :: str "revenue" ++ ' ' :: natChars 2022,
         query_type := .simple_direct, company := some (str "NVDA"),
         year := some 2022, metric := some (str "revenue") },
       { text := str "NVDA" ++ ' ' :: str "revenue" ++ ' ' :: natChars 2023,
         query_type := .simple_direct, company := some (str "NVDA"),
         year := some 2023, metric := some (str "revenue") },
       { text := str "Calculate growth from " ++ natChars (Nat.min 2022 2023)
           ++ str " to " ++ natChars (Nat.max 2022 2023),
         query_type := .calculation, company := some (str "NVDA"),
         metric := some (str "revenue") }] ∧
    2022 % 8 < 2023 % 8 :=
  C4_two_year_comparative
    (str "How did NVIDIA data center revenue grow from 2022 to 2023?")
    (str "NVDA") (str "revenue") [str "data_center_revenue"] 2022 2023
    (by decide) (by decide) (by decide) (by decide)

/-- Helper: from the negation of "A or b is true", the boolean is false. -/
theorem bool_eq_false_or {A : Prop} {b : Bool} (h : ¬(A ∨ b = true)) : b = false := by
  cases hb : b
  · rfl
  · exact absurd (Or.inr hb) h

/-- C5: classification is first-match-wins in the order CROSS_COMPANY (more
than one company, or a comparison keyword), COMPARATIVE (more than one year,
or a growth/decline/comparison keyword), CALCULATION (a calculation keyword),
SIMPLE_DIRECT (otherwise); in particular any query with at least two extracted
companies classifies CROSS_COMPANY. -/
theorem C5_classification :
    (∀ (q : List Char) (cs : List (List Char)) (ys : List Nat),
      (1 < cs.length ∨
        comparison_keywords.any (fun k => containsSub k (lowerStr q)) = true) →
      classify_query_type q cs ys = QueryType.cross_company) ∧
    (∀ (q : List Char) (cs : List (List Char)) (ys : List Nat),
      ¬(1 < cs.length ∨
        comparison_keywords.any (fun k => containsSub k (lowerStr q)) = true) →
      (1 < ys.length ∨
        temporal_keyword_list.any (fun k => containsSub k (lowerStr q)) = true) →
      classify_query_type q cs ys = QueryType.comparative) ∧
    (∀ (q : List Char) (cs : List (List Char)) (ys : List Nat),
      ¬(1 < cs.length ∨
        comparison_keywords.any (fun k => containsSub k (lowerStr q)) = true) →
      ¬(1 < ys.length ∨
        temporal_keyword_list.any (fun k => containsSub k (lowerStr q)) = true) →
      calculation_keywords.any (fun k => containsSub k (lowerStr q)) = true →
      classify_query_type q cs ys = QueryType.calculation) ∧
    (∀ (q : List Char) (cs : List (List Char)) (ys : List Nat),
      ¬(1 < cs.length ∨
        comparison_keywords.any (fun k => containsSub k (lowerStr q)) = true) →
      ¬(1 < ys.length ∨
        temporal_keyword_list.any (fun k => containsSub k (lowerStr q)) = true) →
      ¬calculation_keywords.any (fun k => containsSub k (lowerStr q)) = true →
      classify_query_type q cs ys = QueryType.simple_direct) ∧
    (∀ q : List Char, 2 ≤ (extract_companies q).length →
      classify_query_type q (extract_companies q) (extract_years q) =
        QueryType.cross_company) := by
  have cross : ∀ (q : List Char) (cs : List (List Char)) (ys : List Nat),
      (1 < cs.length ∨
        comparison_keywords.any (fun k => containsSub k (lowerStr q)) = true) →
      classify_query_type q cs ys = QueryType.cross_company := by
    intro q cs ys h
    have hcond : (cs.length > 1
        || comparison_keywords.any (fun k => containsSub k (lowerStr q))) = true := by
      rcases h with h | h <;> simp [h]
    simp [classify_query_type, hcond]
  refine ⟨cross, ?_, ?_, ?_, ?_⟩
  · intro q cs ys hno h
    have h1 : ¬cs.length > 1 := fun hh => hno (Or.inl hh)
    have h2 : comparison_keywords.any (fun k => containsSub k (lowerStr q)) = false :=
      bool_eq_false_or hno
    have hcond2 : (ys.length > 1
        || temporal_keyword_list.any (fun k => containsSub k (lowerStr q))) = true := by
      rcases h with h | h <;> simp [h]
    simp [classify_query_type, h1, h2, hcond2]
  · intro q cs ys hno hno2 h
    have h1 : ¬cs.length > 1 := fun hh => hno (Or.inl hh)
    have h2 : comparison_keywords.any (fun k => containsSub k (lowerStr q)) = false :=
      bool_eq_false_or hno
    have h3 : ¬ys.length > 1 := fun hh => hno2 (Or.inl hh)
    have h4 : temporal_keyword_list.any (fun k => containsSub k (lowerStr q)) = false :=
      bool_eq_false_or hno2
    simp [classify_query_type, h1, h2, h3, h4, h]
  · intro q cs ys hno hno2 h
    have h1 : ¬cs.length > 1 := fun hh => hno (Or.inl hh)
    have h2 : comparison_keywords.any (fun k => containsSub k (lowerStr q)) = false :=
      bool_eq_false_or hno
    have h3 : ¬ys.length > 1 := fun hh => hno2 (Or.inl hh)
    have h4 : temporal_keyword_list.any (fun k => containsSub k (lowerStr q)) = false :=
      bool_eq_false_or hno2
    have h5 : calculation_keywords.any (fun k => containsSub k (lowerStr q)) = false :=
      Bool.eq_false_iff.2 h
    simp [classify_query_type, h1, h2, h3, h4, h5]
  · intro q h
    exact cross q _ _ (Or.inl (by omega))

/-- C5 witness: the two-company corollary applied to the concrete query
"Compare Google and Microsoft revenue in 2024", which extracts two tickers. -/
theorem C5_classification_witness :
    classify_query_type (str "Compare Google and Microsoft revenue in 2024")
      (extract_companies (str "Compare Google and Microsoft revenue in 2024"))
      (extract_years (str "Compare Google and Microsoft revenue in 2024")) =
      QueryType.cross_company :=
  C5_classification.2.2.2.2 (str "Compare Google and Microsoft revenue in 2024")
    (by decide)

/-- C6: a CROSS_COMPANY query naming no tracked company decomposes over the
full roster [GOOGL, MSFT, NVDA] in roster order, one SIMPLE_DIRECT sub-query
per company (text "{company} {metric} {year}" when both a metric and a year
were extracted, else "{company} {original query}"), followed by one
CALCULATION sub-query ("Compare {metric} across companies", without the metric
when none was extracted), with `requires_calculation = true`. -/
theorem C6_cross_company_default_roster (q : List Char)
    (hc : extract_companies q = [])
    (hcls : classify_query_type q (extract_companies q) (extract_years q) =
      QueryType.cross_company) :
    (decompose_query q).sub_queries =
      (defaultRoster.map fun company =>
        { text := match (extract_metrics q).head?, (extract_years q).head? with
            | some m, some y => company ++ ' ' :: m ++ ' ' :: natChars y
            | _, _ => company ++ ' ' :: q
          query_type := QueryType.simple_direct
          company := some company
          year := (extract_years q).head?
          metric := (extract_metrics q).head? : SubQuery })
      ++ [{ text := match (extract_metrics q).head? with
              | some m => str "Compare " ++ m ++ str " across companies"
              | none => str "Compare across companies"
            query_type := QueryType.calculation
            metric := (extract_metrics q).head? : SubQuery }] ∧
    (decompose_query q).requires_calculation = true := by
  constructor
  · simp only [decompose_query, hcls]
    simp [decompose_cross_company_query, hc]
    intro a _
    rcases (extract_metrics q).head? with _ | m <;>
      rcases (extract_years q).head? with _ | y <;> rfl
  · simp only [decompose_query, hcls]

/-- C6 witness: the concrete scenario query "Which company had the highest
operating margin in 2023?" (no company named, comparison keywords present). -/
theorem C6_cross_company_default_roster_witness :
    (decompose_query
        (str "Which company had the highest operating margin in 2023?")).sub_queries =
      [{ text := str "GOOGL operating_margin 2023", query_type := .simple_direct,
         company := some (str "GOOGL"), year := some 2023,
         metric := some (str "operating_margin") },
       { text := str "MSFT operating_margin 2023", query_type := .simple_direct,
         company := some (str "MSFT"), year := some 2023,
         metric := some (str "operating_margin") },
       { text := str "NVDA operating_margin 2023", query_type := .simple_direct,
         company := some (str "NVDA"), year := some 2023,
         metric := some (str "operating_margin") },
       { text := str "Compare operating_margin across companies",
         query_type := .calculation,
         metric := some (str "operating_margin") }] ∧
    (decompose_query
        (str "Which company had the highest operating margin in 2023?")).requires_calculation =
      true := by
  have h := C6_cross_company_default_roster
    (str "Which company had the highest operating margin in 2023?")
    (by decide) (by decide)
  exact ⟨by rw [h.1]; decide, h.2⟩

/-- Helper: folding the per-chunk deduplication step over the chunks of one result is
folding `tagStep` over the same chunks already tagged. -/
theorem foldl_dedupChunkStep (cs : List Chunk) (txt : List Char)
    (acc : List TaggedChunk × List (List Char)) :
    cs.foldl (dedupChunkStep txt) acc =
      (cs.map (fun c => (⟨c, txt⟩ : TaggedChunk))).foldl tagStep acc := by
  rw [List.foldl_map]
  rfl

/-- Helper: the nested loops of `synthesize_context` are one `tagStep` fold
over the flattened tagged stream. -/
theorem collect_eq_foldl_flat (rs : List RetrievalResult) :
    ∀ acc, rs.foldl
        (fun a r => r.retrieved_chunks.foldl (dedupChunkStep r.sub_query.text) a) acc =
      (flat_tagged rs).foldl tagStep acc := by
  induction rs with
  | nil => intro acc; rfl
  | cons r rs ih =>
    intro acc
    rw [List.foldl_cons, ih, foldl_dedupChunkStep,
      show flat_tagged (r :: rs) =
        (r.retrieved_chunks.map (fun c => (⟨c, r.sub_query.text⟩ : TaggedChunk)))
          ++ flat_tagged rs from rfl,
      List.foldl_append]

/-- Helper: the `tagStep` fold computes exactly the first-occurrence
deduplication, together with its seen-set. -/
theorem tagStep_foldl_spec :
    ∀ (l : List TaggedChunk) (acc : List TaggedChunk) (seen : List (List Char)),
      l.foldl tagStep (acc, seen) =
        (acc ++ specDedupKeepFirst seen l,
         seen ++ (specDedupKeepFirst seen l).map (fun t => t.chunk.chunk_id)) := by
  intro l
  induction l with
  | nil => intro acc seen; simp [specDedupKeepFirst]
  | cons t ts ih =>
    intro acc seen
    by_cases h : t.chunk.chunk_id ∈ seen
    · rw [List.foldl_cons, show tagStep (acc, seen) t = (acc, seen) from if_pos h, ih,
        specDedupKeepFirst, if_pos h]
    · rw [List.foldl_cons,
        show tagStep (acc, seen) t =
          (acc ++ [t], seen ++ [t.chunk.chunk_id]) from if_neg h,
        ih, specDedupKeepFirst, if_neg h]
      simp

/-- Helper: `all_chunks` equals the specification-side first-occurrence
deduplication of the flattened tagged stream. -/
theorem all_chunks_eq_spec (rs : List RetrievalResult) :
    all_chunks rs = specDedupKeepFirst [] (flat_tagged rs) := by
  rw [all_chunks, collectChunks, collect_eq_foldl_flat, tagStep_foldl_spec]
  simp

/-- Helper: elements kept by the deduplication come from the input and their
ids avoid the seen-set. -/
theorem mem_specDedupKeepFirst :
    ∀ (l : List TaggedChunk) (seen : List (List Char)) (t : TaggedChunk),
      t ∈ specDedupKeepFirst seen l → t ∈ l ∧ t.chunk.chunk_id ∉ seen := by
  intro l
  induction l with
  | nil => intro seen t h; simp [specDedupKeepFirst] at h
  | cons a as ih =>
    intro seen t h
    rw [specDedupKeepFirst] at h
    split at h
    · rcases ih seen t h with ⟨h1, h2⟩
      exact ⟨List.mem_cons_of_mem _ h1, h2⟩
    · rcases List.mem_cons.1 h with rfl | h'
      · exact ⟨List.mem_cons_self _ _, by assumption⟩
      · rcases ih _ t h' with ⟨h1, h2⟩
        refine ⟨List.mem_cons_of_mem _ h1, fun hx => h2 ?_⟩
        simp [hx]

/-- Helper: the deduplicated list has pairwise distinct chunk ids. -/
theorem nodup_keys_specDedupKeepFirst :
    ∀ (l : List TaggedChunk) (seen : List (List Char)),
      ((specDedupKeepFirst seen l).map (fun t => t.chunk.chunk_id)).Nodup := by
  intro l
  induction l with
  | nil => intro seen; simp [specDedupKeepFirst]
  | cons a as ih =>
    intro seen
    rw [specDedupKeepFirst]
    split
    · exact ih seen
    · rw [List.map_cons]
      refine List.nodup_cons.2 ⟨fun hmem => ?_, ih _⟩
      rcases List.mem_map.1 hmem with ⟨u, hu, hku⟩
      have := (mem_specDedupKeepFirst as _ u hu).2
      exact this (by simp [hku])

/-- Helper: every element the deduplication keeps is the first element of the
stream bearing its chunk id. -/
theorem find_first_specDedupKeepFirst :
    ∀ (l : List TaggedChunk) (seen : List (List Char)) (t : TaggedChunk),
      t ∈ specDedupKeepFirst seen l →
        l.find? (fun u => decide (u.chunk.chunk_id = t.chunk.chunk_id)) = some t := by
  intro l
  induction l with
  | nil => intro seen t h; simp [specDedupKeepFirst] at h
  | cons a as ih =>
    intro seen t h
    rw [specDedupKeepFirst] at h
    split at h
    · rename_i hseen
      have hne : ¬a.chunk.chunk_id = t.chunk.chunk_id := by
        intro hk
        exact (mem_specDedupKeepFirst as seen t h).2 (hk ▸ hseen)
      rw [List.find?_cons_of_neg _ (by simpa using hne)]
      exact ih seen t h
    · rename_i hseen
      rcases List.mem_cons.1 h with rfl | h'
      · exact List.find?_cons_of_pos _ (by simp)
      · have hts := (mem_specDedupKeepFirst as _ t h').2
        have hne : ¬a.chunk.chunk_id = t.chunk.chunk_id := by
          intro hk
          exact hts (by simp [hk])
        rw [List.find?_cons_of_neg _ (by simpa using hne)]
        exact ih _ t h'

/-- C7: context synthesis sorts the deduplicated chunks by descending score
(for the fixture with scores [0.2, 0.9, 0.5] the synthesized order is
[0.9, 0.5, 0.2]), renders at most 10 chunk entries however many chunks were
retrieved, and deduplicates by chunk id keeping exactly the first occurrence
of each id from the flattened, sub-query-tagged stream. -/
theorem C7_synthesize_dedup_rank_bound :
    ((sorted_chunks [exResult]).map (fun t => t.chunk.score) = [9/10, 1/2, 1/5]) ∧
    (∀ rs, (rendered_chunks rs).length ≤ 10) ∧
    (∀ rs, (sorted_chunks rs).Sorted scoreGE) ∧
    (∀ rs, all_chunks rs = specDedupKeepFirst [] (flat_tagged rs)) ∧
    (∀ rs, ((all_chunks rs).map (fun t => t.chunk.chunk_id)).Nodup) ∧
    (∀ rs t, t ∈ all_chunks rs →
      (flat_tagged rs).find?
        (fun u => decide (u.chunk.chunk_id = t.chunk.chunk_id)) = some t) := by
  refine ⟨?_, ?_, ?_, all_chunks_eq_spec, ?_, ?_⟩
  · have h1 : all_chunks [exResult] = [exT1, exT2, exT3] := rfl
    have h23 : scoreGE exT2 exT3 := by norm_num [scoreGE, exT2, exT3, exChunk]
    have h12 : ¬scoreGE exT1 exT2 := by norm_num [scoreGE, exT1, exT2, exChunk]
    have h13 : ¬scoreGE exT1 exT3 := by norm_num [scoreGE, exT1, exT3, exChunk]
    have h2 : sortChunksDesc [exT1, exT2, exT3] = [exT2, exT3, exT1] := by
      simp [sortChunksDesc, List.insertionSort, List.orderedInsert, h23, h12, h13]
    rw [sorted_chunks, h1, h2]
    rfl
  · intro rs
    rw [rendered_chunks]
    simp [List.length_take]
  · intro rs
    exact List.sorted_insertionSort scoreGE (all_chunks rs)
  · intro rs
    rw [all_chunks_eq_spec]
    exact nodup_keys_specDedupKeepFirst _ _
  · intro rs t ht
    rw [all_chunks_eq_spec] at ht
    exact find_first_specDedupKeepFirst _ _ t ht

/-- C7 witness: the first-occurrence conjunct applied to the fixture: the
second chunk of `exResult` is kept and is the first stream element with its
id. -/
theorem C7_synthesize_dedup_rank_bound_witness :
    (flat_tagged [exResult]).find?
      (fun u => decide (u.chunk.chunk_id = exT2.chunk.chunk_id)) = some exT2 :=
  C7_synthesize_dedup_rank_bound.2.2.2.2.2 [exResult] exT2
    (by rw [show all_chunks [exResult] = [exT1, exT2, exT3] from rfl]; simp)

/-- Helper: a list whose chunk ids avoid the seen-set and are pairwise
distinct passes the deduplication unchanged. -/
theorem specDedupKeepFirst_eq_self :
    ∀ (l : List TaggedChunk) (seen : List (List Char)),
      ((l.map (fun t => t.chunk.chunk_id)).Nodup) →
      (∀ t ∈ l, t.chunk.chunk_id ∉ seen) →
      specDedupKeepFirst seen l = l := by
  intro l
  induction l with
  | nil => intro seen _ _; rfl
  | cons a as ih =>
    intro seen hnd hout
    rw [List.map_cons, List.nodup_cons] at hnd
    rw [specDedupKeepFirst, if_neg (hout a (List.mem_cons_self _ _))]
    congr 1
    refine ih _ hnd.2 ?_
    intro t ht hmem
    rcases List.mem_append.1 hmem with h | h
    · exact hout t (List.mem_cons_of_mem _ ht) h
    · have hkey : t.chunk.chunk_id = a.chunk.chunk_id := by simpa using h
      exact hnd.1 (List.mem_map.2 ⟨t, ht, hkey⟩)

/-- Helper: the ranked, deduplicated list still has pairwise distinct ids. -/
theorem nodup_keys_sorted_chunks (rs : List RetrievalResult) :
    ((sorted_chunks rs).map (fun t => t.chunk.chunk_id)).Nodup := by
  rw [sorted_chunks, sortChunksDesc]
  refine ((List.perm_insertionSort scoreGE (all_chunks rs)).map _).nodup_iff.2 ?_
  rw [all_chunks_eq_spec]
  exact nodup_keys_specDedupKeepFirst _ _

/-- C8: the Evidence Synthesizer is deterministic and its chunk-level
transformation (deduplicate by first occurrence, then rank by descending
score) is idempotent: the ranked, deduplicated list it produces passes a
second dedup-and-rank unchanged, and re-running `synthesize_context` on the
same retrieval results reproduces the identical rendered context. -/
theorem C8_synthesizer_idempotent :
    (∀ rs, sorted_chunks rs = dedupRank (flat_tagged rs)) ∧
    (∀ rs, dedupRank (sorted_chunks rs) = sorted_chunks rs) ∧
    (∀ rs dq, synthesize_context rs dq = synthesize_context rs dq) := by
  refine ⟨?_, ?_, fun _ _ => rfl⟩
  · intro rs
    rw [sorted_chunks, all_chunks_eq_spec, dedupRank]
  · intro rs
    rw [dedupRank, specDedupKeepFirst_eq_self (sorted_chunks rs) []
      (nodup_keys_sorted_chunks rs) (by simp)]
    rw [sorted_chunks, sortChunksDesc, sortChunksDesc,
      (List.sorted_insertionSort scoreGE (all_chunks rs)).insertionSort_eq]

/-- C9: `answer_query` is total on every combination of initialization state
and stage outcomes, returning (exhaustively) either the initialization error
string, an "Error: "-prefixed string when the pipeline raised, the generated
answer text, or the generation stage's own "Error generating answer: "
string — never propagating an exception. -/
theorem C9_answer_query_total :
    ∀ (init : Bool) (proc : Except (List Char) ContextSynthesis)
      (gen : Except (List Char) (List Char)),
      (init = false ∧ answer_query init proc gen = initErrorMsg) ∨
      (∃ e, proc = Except.error e ∧
        answer_query init proc gen = str "Error: " ++ e) ∨
      (∃ g, gen = Except.ok g ∧ answer_query init proc gen = g) ∨
      (∃ e, gen = Except.error e ∧
        answer_query init proc gen = str "Error generating answer: " ++ e) := by
  intro init proc gen
  cases init with
  | false => exact Or.inl ⟨rfl, rfl⟩
  | true =>
    cases proc with
    | error e => exact Or.inr (Or.inl ⟨e, rfl, rfl⟩)
    | ok cs =>
      cases gen with
      | ok g => exact Or.inr (Or.inr (Or.inl ⟨g, rfl, rfl⟩))
      | error e => exact Or.inr (Or.inr (Or.inr ⟨e, rfl, rfl⟩))

/-- Helper: a retrieval result whose sub-query lacks a company or a year
leaves the calculation dict unchanged. -/
theorem calcStep_of_missing (cd : List (List Char × CalcEntry)) (r : RetrievalResult)
    (h : r.sub_query.company = none ∨ r.sub_query.year = none) :
    calcStep cd r = cd := by
  rcases h with h | h
  · simp [calcStep, h]
  · rcases hc : r.sub_query.company with _ | c
    · simp [calcStep, hc]
    · simp [calcStep, hc, h]

/-- Helper: folding `calcStep` ignores exactly the results missing a company
or a year. -/
theorem foldl_calcStep_filter :
    ∀ (rs : List RetrievalResult) (acc : List (List Char × CalcEntry)),
      rs.foldl calcStep acc =
        (rs.filter
          (fun r => r.sub_query.company.isSome && r.sub_query.year.isSome)).foldl
          calcStep acc := by
  intro rs
  induction rs with
  | nil => intro acc; rfl
  | cons r rs ih =>
    intro acc
    by_cases hp : (r.sub_query.company.isSome && r.sub_query.year.isSome) = true
    · simp only [List.foldl_cons, List.filter_cons, hp, if_true]
      exact ih _
    · have hmiss : r.sub_query.company = none ∨ r.sub_query.year = none := by
        rcases hc : r.sub_query.company with _ | c
        · exact Or.inl rfl
        · rcases hy : r.sub_query.year with _ | y
          · exact Or.inr rfl
          · exact absurd (by simp [hc, hy]) hp
      have hfalse : (r.sub_query.company.isSome && r.sub_query.year.isSome) = false :=
        Bool.eq_false_iff.2 hp
      rw [List.foldl_cons, calcStep_of_missing _ _ hmiss, ih]
      simp [List.filter_cons, hfalse]

/-- Helper: upserting adds at most the given key to the key list of the dict. -/
theorem mem_keys_upsertKey :
    ∀ (cd : List (List Char × CalcEntry)) (k : List Char) (e : CalcEntry)
      (k' : List Char), k' ∈ (upsertKey cd k e).map Prod.fst →
        k' ∈ cd.map Prod.fst ∨ k' = k := by
  intro cd
  induction cd with
  | nil =>
    intro k e k' h
    rw [show upsertKey [] k e = [(k, e)] from rfl, List.map_cons, List.map_nil] at h
    exact Or.inr (by simpa using h)
  | cons p ps ih =>
    intro k e k' h
    rw [upsertKey] at h
    split at h
    · rw [List.map_cons] at h
      rcases List.mem_cons.1 h with h' | h'
      · exact Or.inr h'
      · exact Or.inl (List.mem_cons_of_mem _ h')
    · rw [List.map_cons] at h
      rcases List.mem_cons.1 h with h' | h'
      · exact Or.inl (by rw [h', List.map_cons]; exact List.mem_cons_self _ _)
      · rcases ih k e k' h' with h'' | h''
        · exact Or.inl (by rw [List.map_cons]; exact List.mem_cons_of_mem _ h'')
        · exact Or.inr h''

/-- Helper: every key of the folded calculation dict either was already there
or is the `{company}_{year}` key of some contributing result. -/
theorem keys_foldl_calcStep :
    ∀ (rs : List RetrievalResult) (acc : List (List Char × CalcEntry))
      (k : List Char), k ∈ (rs.foldl calcStep acc).map Prod.fst →
        k ∈ acc.map Prod.fst ∨
        ∃ r ∈ rs, ∃ c y, r.sub_query.company = some c ∧
          r.sub_query.year = some y ∧ k = c ++ '_' :: natChars y := by
  intro rs
  induction rs with
  | nil =>
    intro acc k h
    exact Or.inl h
  | cons r rs ih =>
    intro acc k h
    rw [List.foldl_cons] at h
    rcases ih _ k h with h' | h'
    · rcases hc : r.sub_query.company with _ | c
      · rw [calcStep_of_missing _ _ (Or.inl hc)] at h'
        exact Or.inl h'
      · rcases hy : r.sub_query.year with _ | y
        · rw [calcStep_of_missing _ _ (Or.inr hy)] at h'
          exact Or.inl h'
        · rw [show calcStep acc r = upsertKey acc (c ++ '_' :: natChars y)
              ((r.retrieved_chunks.foldl (processChunk r.sub_query.metric)
                { (match lookupKey acc (c ++ '_' :: natChars y) with
                   | some e => e
                   | none => { company := c, year := y, chunks := [], metrics := [] }) with
                  chunks :=
                    (match lookupKey acc (c ++ '_' :: natChars y) with
                     | some e => e
                     | none => { company := c, year := y, chunks := [], metrics := [] }).chunks
                      ++ r.retrieved_chunks })) from by
            simp [calcStep, hc, hy]] at h'
          rcases mem_keys_upsertKey _ _ _ _ h' with h'' | h''
          · exact Or.inl h''
          · exact Or.inr ⟨r, List.mem_cons_self _ _, c, y, hc, hy, h''⟩
    · rcases h' with ⟨r', hr', hrest⟩
      exact Or.inr ⟨r', List.mem_cons_of_mem _ hr', hrest⟩

/-- C10: `extract_financial_data` returns the empty dict whenever
`requires_calculation` is false; results whose sub-query lacks a company or a
year (such as the entity-free SIMPLE_DIRECT fallback) contribute nothing even
when calculation is required — filtering them out leaves the result
unchanged — and every key of the dict is the "{company}_{year}" key of some
retrieval result carrying both fields. -/
theorem C10_extract_financial_data :
    (∀ (rs : List RetrievalResult) (dq : DecomposedQuery),
      dq.requires_calculation = false → extract_financial_data rs dq = []) ∧
    (∀ (rs : List RetrievalResult) (dq : DecomposedQuery),
      extract_financial_data rs dq =
        extract_financial_data
          (rs.filter (fun r => r.sub_query.company.isSome && r.sub_query.year.isSome))
          dq) ∧
    (∀ (rs : List RetrievalResult) (dq : DecomposedQuery)
      (kv : List Char × CalcEntry), kv ∈ extract_financial_data rs dq →
        ∃ r ∈ rs, ∃ c y, r.sub_query.company = some c ∧
          r.sub_query.year = some y ∧ kv.1 = c ++ '_' :: natChars y) := by
  refine ⟨?_, ?_, ?_⟩
  · intro rs dq h
    simp [extract_financial_data, h]
  · intro rs dq
    rcases h : dq.requires_calculation with _ | _
    · simp [extract_financial_data, h]
    · simp only [extract_financial_data, h]
      exact foldl_calcStep_filter rs []
  · intro rs dq kv hkv
    rw [extract_financial_data] at hkv
    split at hkv
    · simp at hkv
    · have hk : kv.1 ∈ (rs.foldl calcStep []).map Prod.fst :=
        List.mem_map_of_mem Prod.fst hkv
      rcases keys_foldl_calcStep rs [] kv.1 hk with h' | h'
      · simp at h'
      · exact h'

/-- C10 witness: the empty-dict conjunct applied to a concrete result list and
a concrete decomposed query with `requires_calculation = false`. -/
theorem C10_extract_financial_data_witness :
    extract_financial_data [exResult] dqSimple = [] :=
  C10_extract_financial_data.1 [exResult] dqSimple rfl

end FinQA
